import Mathlib

/-!
Verification of the marcfinder lookup engine (src/marc_cli/main.py).

The Python functions are shallowly embedded as executable Lean definitions:
strings are Lean `String`s manipulated through their underlying `List Char`
(the data is ASCII, so Python's `str.lower`, `str.isdigit`, `str.isalpha`,
`str.strip`, `str.split` coincide with the ASCII char-level operations used
here), Python dicts preserving insertion order are association lists, and
Python's stable `list.sort(key=...)` is modelled with `List.insertionSort`
over the lexicographic order on the computed sort keys (the keys drawn from
a dataset with distinct dict keys never tie, and the properties proved are
permutation plus sortedness, which any correct sort satisfies).
-/

/-! ## Character and string helpers (ASCII models of the Python primitives) -/

/-- Python's whitespace class for `str.strip` / `str.split` (ASCII part). -/
def pyIsSpace (c : Char) : Bool :=
  c = ' ' || c = '\t' || c = '\n' || c = '\r' || c = '\x0b' || c = '\x0c'

/-- `str.lower()` on ASCII text, char by char. -/
def lowerStr (s : String) : String := ⟨s.data.map Char.toLower⟩

/-- Does the char list `s` begin with the char list `pat`? -/
def startsCharList : List Char → List Char → Bool
  | [], _ => true
  | _ :: _, [] => false
  | p :: ps, c :: cs => p == c && startsCharList ps cs

/-- Python `s.startswith(pat)`. -/
def startsWithB (s pat : String) : Bool := startsCharList pat.data s.data

/-- Does `pat` occur contiguously inside the char list? -/
def containsCharList : List Char → List Char → Bool
  | pat, [] => startsCharList pat []
  | pat, c :: cs => startsCharList pat (c :: cs) || containsCharList pat cs

/-- Python `pat in s` for strings: contiguous-substring test
(true for the empty pattern, as in Python). -/
def strContains (s pat : String) : Bool := containsCharList pat.data s.data

/-- Python `s.endswith(suf)`. -/
def strEndsWith (s suf : String) : Bool :=
  startsCharList suf.data.reverse s.data.reverse

/-- Python `s[:-n]` for `n ≤ len(s)`: drop the last `n` characters. -/
def dropRightStr (s : String) (n : Nat) : String :=
  ⟨s.data.take (s.data.length - n)⟩

/-- Python `s[:n]`. -/
def takeStr (s : String) (n : Nat) : String := ⟨s.data.take n⟩

/-- Python `s[n:]`. -/
def dropStr (s : String) (n : Nat) : String := ⟨s.data.drop n⟩

/-- Python `s.strip()`: remove leading and trailing whitespace. -/
def pyStrip (s : String) : String :=
  ⟨((s.data.dropWhile pyIsSpace).reverse.dropWhile pyIsSpace).reverse⟩

/-- Removing only trailing whitespace (Python `s.rstrip()`); used to state
the spec's claim C5 verbatim for comparison. -/
def pyRstrip (s : String) : String :=
  ⟨(s.data.reverse.dropWhile pyIsSpace).reverse⟩

/-- Python `s.replace(c, " ")` for a single-character pattern. -/
def replaceCh (s : String) (c : Char) : String :=
  ⟨s.data.map fun a => if a = c then ' ' else a⟩

/-- Accumulator-style worker for Python `s.split()` (split on whitespace
runs, dropping empty tokens); `cur` holds the current token reversed. -/
def pyWordsAux : List Char → List Char → List String
  | cur, [] => if cur = [] then [] else [⟨cur.reverse⟩]
  | cur, c :: cs =>
    if pyIsSpace c then
      if cur = [] then pyWordsAux [] cs else (⟨cur.reverse⟩ : String) :: pyWordsAux [] cs
    else pyWordsAux (c :: cur) cs

/-- Python `s.split()` with no argument. -/
def pyWords (s : String) : List String := pyWordsAux [] s.data

/-- Python `s.isdigit()` on an ASCII string (used on one-character
subfield codes). -/
def pyIsDigitStr (s : String) : Bool := !s.data.isEmpty && s.data.all Char.isDigit

/-- Python string `<=` is lexicographic by code point. -/
def charsLeB : List Char → List Char → Bool
  | [], _ => true
  | _ :: _, [] => false
  | a :: as, b :: bs => if a < b then true else if b < a then false else charsLeB as bs

/-- Lexicographic order on strings, as Python compares them. -/
def strLe (a b : String) : Prop := charsLeB a.data b.data = true

instance strLeDec : DecidableRel strLe := fun a b =>
  inferInstanceAs (Decidable (charsLeB a.data b.data = true))

/-- Lexicographic order on a pair whose first component is a numeric
group tag, mirroring Python tuple comparison `(g, rest)`. -/
def natLex {γ : Type} (le : γ → γ → Prop) (a b : Nat × γ) : Prop :=
  a.1 < b.1 ∨ (a.1 = b.1 ∧ le a.2 b.2)

instance natLexDec {γ : Type} (le : γ → γ → Prop) [DecidableRel le] :
    DecidableRel (natLex le) := fun a b =>
  inferInstanceAs (Decidable (a.1 < b.1 ∨ (a.1 = b.1 ∧ le a.2 b.2)))

/-- Python tuple comparison on `(Nat, Nat, Nat, String)` sort keys. -/
def le4 : Nat × Nat × Nat × String → Nat × Nat × Nat × String → Prop :=
  natLex (natLex (natLex strLe))

instance le4Dec : DecidableRel le4 := fun a b =>
  inferInstanceAs (Decidable (natLex (natLex (natLex strLe)) a b))

/-! ## Data model (section 3 of the spec; the shape of marc.json /
marc-verbose.json entries) -/

/-- One subfield entry of a verbose record's `Details.subfields`;
`extended` is `""` when the optional extended description is absent
(Python tests it for truthiness). -/
structure SubfieldInfo where
  description : String
  extended : String
  repeatability : String
deriving DecidableEq

/-- The `Details` object of verbose field records.  Empty string / empty
list model an absent or falsy entry, matching the `details.get(...)`
truthiness tests in the source. -/
structure Details where
  definition : String
  indicators : List (String × List String)
  subfields : List (String × SubfieldInfo)
  examples : List String
deriving DecidableEq

/-- A dataset record: `{Key, Value, Created}` plus optional `Details`.
The dict key is carried separately, as in the Python `data.items()` pairs. -/
structure Record where
  Value : String
  Created : String
  Details : Option Details
deriving DecidableEq

/-- A loaded dataset: a JSON object iterated in insertion order. -/
abbrev MarcData := List (String × Record)

/-- A brief record with no details, for concrete test datasets. -/
def mkRec (v : String) : Record := { Value := v, Created := "", Details := none }

/-! ## Query classifier (main.py lines 51-53) -/

/-- `is_code_query`: `query and query[0].isdigit()`; the empty string is
falsy, a non-empty string is classified by its first character. -/
def is_code_query (query : String) : Bool :=
  match query.data with
  | [] => false
  | c :: _ => c.isDigit

/-! ## Code matcher (main.py lines 56-87) -/

/-- Python `key[3]`; the default is never used on the well-formed keys
(length 3 or more) on which the Python code is defined. -/
def charAt (s : String) (i : Nat) : Char := s.data.getD i ' '

/-- `sort_key` of `search_by_code`: group 0 for a 3-character field key,
group 1 for an alphabetic subfield character, group 2 otherwise; ties by
the full key. -/
def code_sort_key (item : String × Record) : Nat × String :=
  if item.1.length = 3 then (0, item.1)
  else if (charAt item.1 3).isAlpha then (1, item.1)
  else (2, item.1)

/-- The order in which `search_by_code` returns its matches. -/
def code_le (a b : String × Record) : Prop :=
  natLex strLe (code_sort_key a) (code_sort_key b)

instance codeLeDec : DecidableRel code_le := fun a b =>
  inferInstanceAs (Decidable (natLex strLe (code_sort_key a) (code_sort_key b)))

/-- `search_by_code`: keep the entries whose key starts with the query,
case-insensitively, and sort them by `code_sort_key`. -/
def search_by_code (data : MarcData) (code : String) : List (String × Record) :=
  List.insertionSort code_le
    (data.filter fun p => startsWithB (lowerStr p.1) (lowerStr code))

/-! ## Keyword matcher (main.py lines 90-125) -/

/-- The word list of a description: lowercase, replace the delimiters
`- / , ( )` with spaces, split on whitespace. -/
def exact_words (value : String) : List String :=
  pyWords (replaceCh (replaceCh (replaceCh (replaceCh (replaceCh
    (lowerStr value) '-') '/') ',') '(') ')')

/-- Membership of a string in a token list (Python `x in words`). -/
def strListContains (l : List String) (s : String) : Bool :=
  l.any fun t => t.data == s.data

/-- `is_exact`: the lowercased keyword equals one of the tokens of the
lowercased description. -/
def is_exact_match (keyword value : String) : Bool :=
  strListContains (exact_words value) (lowerStr keyword)

/-- The sort key of `search_by_keyword`:
`(not is_exact, len(key) > 3, len(key), key)` with Python's
`False < True` rendered as `0 < 1`. -/
def kw_tuple (key : String) (is_exact : Bool) : Nat × Nat × Nat × String :=
  (if is_exact then 0 else 1, if 3 < key.length then 1 else 0, key.length, key)

/-- Order used while sorting the `(key, entry, is_exact)` triples. -/
def kwRel (a b : String × Record × Bool) : Prop :=
  le4 (kw_tuple a.1 a.2.2) (kw_tuple b.1 b.2.2)

instance kwRelDec : DecidableRel kwRel := fun a b =>
  inferInstanceAs (Decidable (le4 (kw_tuple a.1 a.2.2) (kw_tuple b.1 b.2.2)))

/-- The same order expressed on the returned `(key, entry)` pairs, with
the exactness flag recomputed from the record; this is the order the
claims speak about. -/
def kw_pair_le (keyword : String) (a b : String × Record) : Prop :=
  le4 (kw_tuple a.1 (is_exact_match keyword a.2.Value))
    (kw_tuple b.1 (is_exact_match keyword b.2.Value))

instance kwPairLeDec (keyword : String) : DecidableRel (kw_pair_le keyword) := fun a b =>
  inferInstanceAs (Decidable (le4 (kw_tuple a.1 (is_exact_match keyword a.2.Value))
    (kw_tuple b.1 (is_exact_match keyword b.2.Value))))

/-- `search_by_keyword`: collect `(key, entry, is_exact)` for every entry
whose lowercased Value contains the lowercased keyword, sort by
`kw_tuple`, then drop the flag. -/
def search_by_keyword (data : MarcData) (keyword : String) : List (String × Record) :=
  (List.insertionSort kwRel
    ((data.filter fun p => strContains (lowerStr p.2.Value) (lowerStr keyword)).map
      fun p => (p.1, p.2, is_exact_match keyword p.2.Value))).map
    fun t => (t.1, t.2.1)

/-! ## Presentation formatter (main.py lines 128-232) -/

def Fore_RED : String := "\x1b[31m"

def Fore_GREEN : String := "\x1b[32m"

def Fore_YELLOW : String := "\x1b[33m"

def Fore_BLUE : String := "\x1b[34m"

def Fore_MAGENTA : String := "\x1b[35m"

def Fore_CYAN : String := "\x1b[36m"

def Fore_WHITE : String := "\x1b[37m"

def Style_BRIGHT : String := "\x1b[1m"

def Style_DIM : String := "\x1b[2m"

def Style_RESET_ALL : String := "\x1b[0m"

/-- `format_output` (lines 128-155): colored key, spacing, the Value with
one trailing `(R)`/`(NR)` stripped (Python `value[:-n].strip()`), and the
stripped token re-appended as a colored badge. -/
def format_output (key value : String) : String :=
  (if key.length = 3 then Fore_CYAN ++ Style_BRIGHT ++ key
   else Fore_BLUE ++ takeStr key 3 ++ Fore_MAGENTA ++ "$" ++ dropStr key 3) ++
  Style_RESET_ALL ++
  (if key.length = 3 then "    " else "  ") ++
  (if strEndsWith value "(R)" then pyStrip (dropRightStr value 3)
   else if strEndsWith value "(NR)" then pyStrip (dropRightStr value 4)
   else value) ++ " " ++
  (if strEndsWith value "(R)" then Fore_GREEN ++ "(R)" ++ Style_RESET_ALL
   else if strEndsWith value "(NR)" then Fore_YELLOW ++ "(NR)" ++ Style_RESET_ALL
   else "")

/-- The description part of brief rendering, named for the claims. -/
def display_description (value : String) : String :=
  if strEndsWith value "(R)" then pyStrip (dropRightStr value 3)
  else if strEndsWith value "(NR)" then pyStrip (dropRightStr value 4)
  else value

/-- The repeatability badge of brief rendering, without color codes. -/
def display_badge (value : String) : String :=
  if strEndsWith value "(R)" then "(R)"
  else if strEndsWith value "(NR)" then "(NR)"
  else ""

/-- The badge as emitted, with its color wrapping. -/
def badge_colored (value : String) : String :=
  if strEndsWith value "(R)" then Fore_GREEN ++ "(R)" ++ Style_RESET_ALL
  else if strEndsWith value "(NR)" then Fore_YELLOW ++ "(NR)" ++ Style_RESET_ALL
  else ""

/-- The key part of brief rendering. -/
def display_key_str (key : String) : String :=
  if key.length = 3 then Fore_CYAN ++ Style_BRIGHT ++ key
  else Fore_BLUE ++ takeStr key 3 ++ Fore_MAGENTA ++ "$" ++ dropStr key 3

/-- The spacing between key and description in brief rendering. -/
def spacing_str (key : String) : String := if key.length = 3 then "    " else "  "

/-- Modelled from the spec, claim C5's words: the Value with the single
trailing token and only the whitespace BEFORE it removed (no stripping of
leading whitespace).  Stated for comparison with `display_description`. -/
def spec_claimed_description (value : String) : String :=
  if strEndsWith value "(R)" then pyRstrip (dropRightStr value 3)
  else if strEndsWith value "(NR)" then pyRstrip (dropRightStr value 4)
  else value

/-- Sort key of the verbose subfield listing: `(x[0].isdigit(), x[0])`. -/
def subfield_sort_key (x : String × SubfieldInfo) : Nat × String :=
  (if pyIsDigitStr x.1 then 1 else 0, x.1)

def subfield_le (a b : String × SubfieldInfo) : Prop :=
  natLex strLe (subfield_sort_key a) (subfield_sort_key b)

instance subfieldLeDec : DecidableRel subfield_le := fun a b =>
  inferInstanceAs (Decidable (natLex strLe (subfield_sort_key a) (subfield_sort_key b)))

/-- The subfield section lines of verbose output (lines 189-206). -/
def subfield_lines (subfields : List (String × SubfieldInfo)) : List String :=
  (List.insertionSort subfield_le subfields).flatMap fun p =>
    ("  " ++ Fore_MAGENTA ++ "$" ++ p.1 ++ Style_RESET_ALL ++ " - " ++
      p.2.description ++ " " ++
      (if p.2.repeatability = "R" then Fore_GREEN else Fore_YELLOW) ++
      "(" ++ p.2.repeatability ++ ")" ++ Style_RESET_ALL) ::
    (if p.2.extended ≠ "" then
      ["      " ++ Fore_WHITE ++ Style_DIM ++ p.2.extended ++ Style_RESET_ALL]
     else [])

/-- The indicator section lines of verbose output (lines 180-186). -/
def indicator_lines (indicators : List (String × List String)) : List String :=
  indicators.flatMap fun p =>
    ("  " ++ Fore_MAGENTA ++ p.1 ++ Style_RESET_ALL) ::
    p.2.map fun v => "    " ++ v

/-- One numbered example line: `f"  {Fore.GREEN}{i}.{Style.RESET_ALL} {example}"`. -/
def numbered_example_line (i : Nat) (e : String) : String :=
  "  " ++ Fore_GREEN ++ toString i ++ "." ++ Style_RESET_ALL ++ " " ++ e

/-- `enumerate(examples, 1)` rendered as lines, starting the numbering at `i`. -/
def number_lines (i : Nat) : List String → List String
  | [] => []
  | e :: es => numbered_example_line i e :: number_lines (i + 1) es

/-- The example lines of verbose output: `details["examples"][:5]`,
numbered from 1 (lines 208-213). -/
def example_lines (examples : List String) : List String :=
  number_lines 1 (examples.take 5)

def examples_header : String := Fore_YELLOW ++ Style_BRIGHT ++ "Examples:" ++ Style_RESET_ALL

def eq70 : String := ⟨List.replicate 70 '='⟩

/-- The `output` line list built by `format_verbose_output` for a field
record with details (lines 167-213). -/
def verbose_lines (key value : String) (details : Details) : List String :=
  ["\n" ++ Fore_CYAN ++ Style_BRIGHT ++ eq70,
   Fore_CYAN ++ Style_BRIGHT ++ key ++ " - " ++ value,
   Fore_CYAN ++ Style_BRIGHT ++ eq70 ++ Style_RESET_ALL ++ "\n"] ++
  (if details.definition ≠ "" then
    [Fore_YELLOW ++ Style_BRIGHT ++ "Definition:" ++ Style_RESET_ALL,
     "  " ++ details.definition ++ "\n"]
   else []) ++
  (if details.indicators ≠ [] then
    (Fore_YELLOW ++ Style_BRIGHT ++ "Indicators:" ++ Style_RESET_ALL) ::
      indicator_lines details.indicators ++ [""]
   else []) ++
  (if details.subfields ≠ [] then
    (Fore_YELLOW ++ Style_BRIGHT ++ "Subfields:" ++ Style_RESET_ALL) ::
      subfield_lines details.subfields ++ [""]
   else []) ++
  (if details.examples ≠ [] then
    examples_header :: (example_lines details.examples ++ [""])
   else [])

/-- `format_verbose_output` (lines 158-215): detailed rendering for a
3-character key carrying `Details`, falling back to `format_output`
otherwise. -/
def format_verbose_output (key : String) (entry : Record) : String :=
  match entry.Details with
  | some details =>
    if key.length = 3 then String.intercalate "\n" (verbose_lines key entry.Value details)
    else format_output key entry.Value
  | none => format_output key entry.Value

/-- `display_results` (lines 218-232), as the list of printed strings:
verbose mode prints detailed output for the 3-character keys only. -/
def display_results (ms : List (String × Record)) (verbose : Bool) : List String :=
  if ms = [] then [Fore_YELLOW ++ "No matches found."]
  else if verbose then
    ms.foldr
      (fun p acc => if p.1.length = 3 then format_verbose_output p.1 p.2 :: acc else acc) []
  else ms.map fun p => format_output p.1 p.2.Value

/-! ## The query-dispatch part of `main` (lines 260-282) -/

def notice_line : String :=
  Fore_YELLOW ++ "Note: Verbose mode is not available for keyword searches.\n"

def found_line (n : Nat) : String :=
  Fore_GREEN ++ "Found " ++ toString n ++ " matches:\n"

def no_code_line (query : String) : String :=
  Fore_YELLOW ++ "No field found matching code: " ++ Fore_WHITE ++ query

def no_keyword_line (query : String) : String :=
  Fore_YELLOW ++ "No fields found matching keyword: " ++ Fore_WHITE ++ query

/-- The printed output of `main` after the dataset is loaded: code route
or keyword route, with the verbose-keyword downgrade notice. -/
def run_query (data : MarcData) (query : String) (verbose : Bool) : List String :=
  if is_code_query query then
    (if search_by_code data query ≠ [] then display_results (search_by_code data query) verbose
     else [no_code_line query])
  else
    (if verbose then [notice_line] else []) ++
    (if search_by_keyword data query ≠ [] then
      (if 1 < (search_by_keyword data query).length then
        [found_line (search_by_keyword data query).length]
       else []) ++
      display_results (search_by_keyword data query) false
     else [no_keyword_line query])

/-! ## Spec-side order for claim C4 (description length instead of key
length as the third sort component) -/

/-- Modelled from the spec, claim C4's words: the four-component key with
DESCRIPTION length third. -/
def spec_kw_desc_tuple (keyword : String) (p : String × Record) : Nat × Nat × Nat × String :=
  (if is_exact_match keyword p.2.Value then 0 else 1,
   if 3 < p.1.length then 1 else 0,
   p.2.Value.length, p.1)

/-- The order claim C4 asserts on keyword results. -/
def spec_kw_claim_le (keyword : String) (a b : String × Record) : Prop :=
  le4 (spec_kw_desc_tuple keyword a) (spec_kw_desc_tuple keyword b)

instance specKwClaimDec (keyword : String) : DecidableRel (spec_kw_claim_le keyword) :=
  fun a b => inferInstanceAs
    (Decidable (le4 (spec_kw_desc_tuple keyword a) (spec_kw_desc_tuple keyword b)))

/-! ## Concrete datasets for the examples and counterexamples -/

def cexEmptyData : MarcData :=
  [("020", mkRec "International Standard Book Number (NR)")]

def exCodeData : MarcData :=
  [("0206", mkRec "Canceled/invalid ISBN (R)"),
   ("020", mkRec "International Standard Book Number (NR)"),
   ("020a", mkRec "International Standard Book Number (NR)")]

def isbnField : Record := mkRec "International Standard Book Number (ISBN) (NR)"

def isbnNote : Record := mkRec "ISBN-related note (R)"

def isbnCexData : MarcData := [("500a", isbnField), ("020", isbnNote)]

def isbnData1 : MarcData := [("020", isbnField), ("020a", isbnNote)]

def isbnData2 : MarcData := [("020a", isbnNote), ("020", isbnField)]

def recC4a : Record := mkRec "xx query yyyy"

def recC4b : Record := mkRec "query"

def c4Data : MarcData := [("020a", recC4a), ("020b", recC4b)]

def rec245v : Record :=
  { Value := "Title Statement (NR)", Created := "",
    Details := some
      { definition := "The title and statement of responsibility of a work.",
        indicators := [("First - Title added entry", ["0 - No added entry", "1 - Added entry"])],
        subfields :=
          [("a", { description := "Title", extended := "", repeatability := "NR" }),
           ("6", { description := "Linkage", extended := "", repeatability := "NR" })],
        examples := ["ex1", "ex2"] } }

def det7 : Details :=
  { definition := "", indicators := [], subfields := [],
    examples := ["e1", "e2", "e3", "e4", "e5", "e6", "e7"] }

/-! ## Order lemmas for the comparators -/

theorem charsLeB_total : ∀ x y : List Char, charsLeB x y = true ∨ charsLeB y x = true := by
  intro x
  induction x with
  | nil => intro y; left; rfl
  | cons a as ih =>
    intro y
    cases y with
    | nil => right; rfl
    | cons b bs =>
      rcases lt_trichotomy a b with h | h | h
      · left; simp [charsLeB, h]
      · subst h
        rcases ih bs with h2 | h2
        · left; simp [charsLeB, lt_irrefl, h2]
        · right; simp [charsLeB, lt_irrefl, h2]
      · right; simp [charsLeB, h]

theorem charsLeB_trans :
    ∀ x y z : List Char, charsLeB x y = true → charsLeB y z = true → charsLeB x z = true := by
  intro x
  induction x with
  | nil => intro y z _ _; rfl
  | cons a as ih =>
    intro y z h1 h2
    cases y with
    | nil => simp [charsLeB] at h1
    | cons b bs =>
      cases z with
      | nil => simp [charsLeB] at h2
      | cons c cs =>
        rcases lt_trichotomy a b with hab | hab | hab
        · rcases lt_trichotomy b c with hbc | hbc | hbc
          · simp [charsLeB, lt_trans hab hbc]
          · subst hbc; simp [charsLeB, hab]
          · rw [charsLeB, if_neg (lt_asymm hbc), if_pos hbc] at h2
            exact absurd h2 (by simp)
        · subst hab
          rw [charsLeB, if_neg (lt_irrefl a), if_neg (lt_irrefl a)] at h1
          rcases lt_trichotomy a c with hac | hac | hac
          · simp [charsLeB, hac]
          · subst hac
            rw [charsLeB, if_neg (lt_irrefl a), if_neg (lt_irrefl a)] at h2 ⊢
            exact ih bs cs h1 h2
          · rw [charsLeB, if_neg (lt_asymm hac), if_pos hac] at h2
            exact absurd h2 (by simp)
        · rw [charsLeB, if_neg (lt_asymm hab), if_pos hab] at h1
          exact absurd h1 (by simp)

theorem strLe_total : ∀ a b : String, strLe a b ∨ strLe b a := fun a b =>
  charsLeB_total a.data b.data

theorem strLe_trans : ∀ a b c : String, strLe a b → strLe b c → strLe a c := fun a b c =>
  charsLeB_trans a.data b.data c.data

theorem natLex_total {γ : Type} {le : γ → γ → Prop} (h : ∀ x y, le x y ∨ le y x) :
    ∀ a b, natLex le a b ∨ natLex le b a := by
  intro a b
  rcases Nat.lt_trichotomy a.1 b.1 with hn | hn | hn
  · exact Or.inl (Or.inl hn)
  · rcases h a.2 b.2 with hl | hl
    · exact Or.inl (Or.inr ⟨hn, hl⟩)
    · exact Or.inr (Or.inr ⟨hn.symm, hl⟩)
  · exact Or.inr (Or.inl hn)

theorem natLex_trans {γ : Type} {le : γ → γ → Prop} (h : ∀ x y z, le x y → le y z → le x z) :
    ∀ a b c, natLex le a b → natLex le b c → natLex le a c := by
  rintro a b c (h1 | ⟨e1, l1⟩) (h2 | ⟨e2, l2⟩)
  · exact Or.inl (Nat.lt_trans h1 h2)
  · exact Or.inl (lt_of_lt_of_eq h1 e2)
  · exact Or.inl (lt_of_eq_of_lt e1 h2)
  · exact Or.inr ⟨e1.trans e2, h _ _ _ l1 l2⟩

theorem le4_total : ∀ a b, le4 a b ∨ le4 b a :=
  natLex_total (natLex_total (natLex_total strLe_total))

theorem le4_trans : ∀ a b c, le4 a b → le4 b c → le4 a c :=
  natLex_trans (natLex_trans (natLex_trans strLe_trans))

instance : IsTotal (String × Record) code_le :=
  ⟨fun a b => natLex_total strLe_total (code_sort_key a) (code_sort_key b)⟩

instance : IsTrans (String × Record) code_le :=
  ⟨fun a b c => natLex_trans strLe_trans (code_sort_key a) (code_sort_key b) (code_sort_key c)⟩

instance : IsTotal (String × Record × Bool) kwRel :=
  ⟨fun a b => le4_total (kw_tuple a.1 a.2.2) (kw_tuple b.1 b.2.2)⟩

instance : IsTrans (String × Record × Bool) kwRel :=
  ⟨fun a b c => le4_trans (kw_tuple a.1 a.2.2) (kw_tuple b.1 b.2.2) (kw_tuple c.1 c.2.2)⟩

/-! ## Behavior lemmas shared by the claims -/

/-- The empty pattern occurs in every char list, as Python's `"" in s`. -/
theorem containsCharList_nil : ∀ l : List Char, containsCharList [] l = true := by
  intro l; cases l <;> rfl

/-- The keyword matcher returns a permutation of the substring filter. -/
theorem search_by_keyword_perm (data : MarcData) (keyword : String) :
    (search_by_keyword data keyword).Perm
      (data.filter fun p => strContains (lowerStr p.2.Value) (lowerStr keyword)) := by
  unfold search_by_keyword
  refine ((List.perm_insertionSort _ _).map _).trans ?_
  rw [List.map_map]
  have hcomp : ((fun t : String × Record × Bool => (t.1, t.2.1)) ∘
      fun p : String × Record => (p.1, p.2, is_exact_match keyword p.2.Value)) = id := by
    funext p; rfl
  rw [hcomp, List.map_id]

/-- Dropping the exactness flag preserves sortedness, with the flag
recomputed from the record. -/
theorem pairwise_drop_flag (keyword : String) (l : List (String × Record × Bool))
    (hinv : ∀ t ∈ l, t.2.2 = is_exact_match keyword t.2.1.Value)
    (hp : l.Pairwise kwRel) :
    (l.map fun t => (t.1, t.2.1)).Pairwise (kw_pair_le keyword) := by
  rw [List.pairwise_map]
  refine hp.imp_of_mem ?_
  intro a b ha hb hab
  show le4 (kw_tuple a.1 (is_exact_match keyword a.2.1.Value))
    (kw_tuple b.1 (is_exact_match keyword b.2.1.Value))
  rw [← hinv a ha, ← hinv b hb]
  exact hab

/-- The keyword matcher's output is sorted by the four-component key. -/
theorem search_by_keyword_sorted (data : MarcData) (keyword : String) :
    (search_by_keyword data keyword).Pairwise (kw_pair_le keyword) := by
  unfold search_by_keyword
  apply pairwise_drop_flag
  · intro t ht
    rw [List.mem_insertionSort] at ht
    obtain ⟨p, _, rfl⟩ := List.mem_map.mp ht
    rfl
  · exact List.sorted_insertionSort kwRel _

/-- `number_lines` is `enumerate` from `i` rendered through
`numbered_example_line`. -/
theorem number_lines_eq_enumFrom (i : Nat) (l : List String) :
    number_lines i l = (List.enumFrom i l).map fun p => numbered_example_line p.1 p.2 := by
  induction l generalizing i with
  | nil => rfl
  | cons e es ih => simp [number_lines, List.enumFrom_cons, ih]

theorem number_lines_length (i : Nat) (l : List String) :
    (number_lines i l).length = l.length := by
  induction l generalizing i with
  | nil => rfl
  | cons e es ih => simp [number_lines, ih]

/-- The verbose loop of `display_results` equals a filter to field keys. -/
theorem verbose_foldr_filter (ms : List (String × Record)) :
    ms.foldr
      (fun p acc => if p.1.length = 3 then format_verbose_output p.1 p.2 :: acc else acc) [] =
    (ms.filter fun p => p.1.length == 3).map fun p => format_verbose_output p.1 p.2 := by
  induction ms with
  | nil => rfl
  | cons p ps ih =>
    by_cases h : p.1.length = 3
    · simp [List.filter_cons, h, ih]
    · simp [List.filter_cons, h, ih]

/-! ## Claim theorems -/

/-- Claim C9: the query classifier returns a code classification exactly
when the query is non-empty and its first character is a decimal digit,
and it classifies the empty string as non-code (it is total, so it never
raises). -/
theorem query_classifier_iff :
    (∀ q : String, is_code_query q = true ↔ ∃ c cs, q.data = c :: cs ∧ c.isDigit = true) ∧
    is_code_query "" = false := by
  refine ⟨fun q => ?_, rfl⟩
  obtain ⟨l⟩ := q
  cases l with
  | nil => simp [is_code_query]
  | cons c cs => simp [is_code_query]

/-- Claim C2: the code matcher returns exactly the entries whose key
starts with the query case-insensitively (as a permutation of the
filtered dataset), sorted by the three-level key (field group 0,
alphabetic subfield group 1, numeric subfield group 2, then the full key
lexicographically); for field 020 with subfields 020a and 0206 the output
order is 020, 020a, 0206.  The well-formedness hypothesis (every key has
at least 3 characters) marks the domain on which the Python `key[3]`
access is defined. -/
theorem code_matcher_correct :
    (∀ (data : MarcData) (code : String), (∀ p ∈ data, 3 ≤ p.1.length) →
      (search_by_code data code).Perm
        (data.filter fun p => startsWithB (lowerStr p.1) (lowerStr code)) ∧
      (search_by_code data code).Pairwise code_le) ∧
    (search_by_code exCodeData "020").map Prod.fst = ["020", "020a", "0206"] := by
  refine ⟨fun data code _h => ⟨List.perm_insertionSort _ _, ?_⟩, by decide⟩
  exact List.sorted_insertionSort code_le _

/-- Witness for claim C2 at a concrete dataset and query. -/
theorem code_matcher_correct_witness :
    (search_by_code exCodeData "020").Perm
      (exCodeData.filter fun p => startsWithB (lowerStr p.1) (lowerStr "020")) ∧
    (search_by_code exCodeData "020").Pairwise code_le :=
  code_matcher_correct.1 exCodeData "020" (by decide)

/-- Counterexample to claim C3's example clause: under the code's
tokenizer the hyphen is a delimiter, so "ISBN-related note (R)" is ALSO
an exact whole-word match for "isbn"; choosing keys so that the record
with "(ISBN)" in its description is a subfield (500a) and the
"ISBN-related" record is a field (020), the allegedly partial match is
ranked first. -/
theorem keyword_isbn_counterexample :
    is_exact_match "isbn" "International Standard Book Number (ISBN) (NR)" = true ∧
    is_exact_match "isbn" "ISBN-related note (R)" = true ∧
    (search_by_keyword isbnCexData "isbn").map Prod.fst = ["020", "500a"] :=
  ⟨by decide, by decide, by decide⟩

/-- Claim C3 (amended): for every dataset and non-empty query the keyword
matcher returns exactly the records whose lowercased Value contains the
lowercased query (as a permutation of the filtered dataset), sorted by
the four-component key `(not is_exact, len(key) > 3, len(key), key)`
with is_exact computed by the delimiter tokenizer; in the ISBN example
both descriptions are exact matches, so with keys 020 and 020a the order
is 020 then 020a regardless of dataset order. -/
theorem keyword_matcher_correct :
    (∀ (data : MarcData) (keyword : String), keyword ≠ "" →
      (search_by_keyword data keyword).Perm
        (data.filter fun p => strContains (lowerStr p.2.Value) (lowerStr keyword)) ∧
      (search_by_keyword data keyword).Pairwise (kw_pair_le keyword)) ∧
    (search_by_keyword isbnData1 "isbn").map Prod.fst = ["020", "020a"] ∧
    (search_by_keyword isbnData2 "isbn").map Prod.fst = ["020", "020a"] :=
  ⟨fun data keyword _h =>
    ⟨search_by_keyword_perm data keyword, search_by_keyword_sorted data keyword⟩,
   by decide, by decide⟩

/-- Witness for claim C3 at a concrete dataset and query. -/
theorem keyword_matcher_correct_witness :
    (search_by_keyword isbnData1 "isbn").Perm
      (isbnData1.filter fun p => strContains (lowerStr p.2.Value) (lowerStr "isbn")) ∧
    (search_by_keyword isbnData1 "isbn").Pairwise (kw_pair_le "isbn") :=
  keyword_matcher_correct.1 isbnData1 "isbn" (by decide)

/-- Counterexample to claim C4: the third sort component is KEY length,
not description length; two subfield records whose description lengths
order them opposite to their keys come out in key order, violating the
description-length order the claim asserts. -/
theorem keyword_desc_length_counterexample :
    search_by_keyword c4Data "query" = [("020a", recC4a), ("020b", recC4b)] ∧
    ¬ spec_kw_claim_le "query" ("020a", recC4a) ("020b", recC4b) :=
  ⟨by decide, by decide⟩

/-- Claim C4 (amended): the keyword matcher orders its results by
exactness first, then field-vs-subfield precedence, then KEY length
ascending, then lexicographic key. -/
theorem keyword_ordering_by_key_length :
    ∀ (data : MarcData) (keyword : String),
      (search_by_keyword data keyword).Pairwise (kw_pair_le keyword) :=
  search_by_keyword_sorted

/-- Counterexample to claim C1: the empty-string query IS routed to
keyword search, but Python's `"" in s` is true for every `s`, so the
search returns every record (here one), not zero matches. -/
theorem empty_query_counterexample :
    is_code_query "" = false ∧ (search_by_keyword cexEmptyData "").length = 1 :=
  ⟨rfl, by decide⟩

/-- Claim C1 (amended): the empty-string query is classified as a keyword
query, and the keyword search for it returns EVERY record of the dataset
(the empty string is a substring of every Value). -/
theorem empty_query_matches_all :
    is_code_query "" = false ∧
    ∀ data : MarcData, (search_by_keyword data "").Perm data := by
  refine ⟨rfl, fun data => ?_⟩
  have hf : (data.filter fun p => strContains (lowerStr p.2.Value) (lowerStr "")) = data :=
    List.filter_eq_self.mpr fun a _ => containsCharList_nil _
  have hp := search_by_keyword_perm data ""
  rwa [hf] at hp

/-- Counterexample to claim C5: `value[:-3].strip()` also removes LEADING
whitespace, while the claim prescribes removing only the trailing token
and the whitespace before it. -/
theorem brief_rendering_counterexample :
    display_description "  ISBN (R)" = "ISBN" ∧
    spec_claimed_description "  ISBN (R)" = "  ISBN" ∧
    display_description "  ISBN (R)" ≠ spec_claimed_description "  ISBN (R)" :=
  ⟨by decide, by decide, by decide⟩

/-- Claim C5 (amended): brief rendering strips exactly one trailing (R)
or (NR) token and strips the remaining description of whitespace on BOTH
ends, showing the token as a separate badge; a Value ending in neither is
rendered unchanged with an empty badge; rendering is a pure function of
the record, which is never mutated. -/
theorem brief_rendering_repeatability :
    (∀ key value : String, format_output key value =
      display_key_str key ++ Style_RESET_ALL ++ spacing_str key ++
        display_description value ++ " " ++ badge_colored value) ∧
    display_description "Title statement (NR)" = "Title statement" ∧
    display_badge "Title statement (NR)" = "(NR)" ∧
    (∀ value : String, strEndsWith value "(R)" = false → strEndsWith value "(NR)" = false →
      display_description value = value ∧ display_badge value = "") ∧
    display_description "Notes (R) (R)" = "Notes (R)" ∧
    display_badge "Notes (R) (R)" = "(R)" := by
  refine ⟨fun key value => rfl, by decide, by decide, ?_, by decide, by decide⟩
  intro value h1 h2
  constructor
  · simp [display_description, h1, h2]
  · simp [display_badge, h1, h2]

/-- Witness for claim C5's no-suffix case at a concrete Value. -/
theorem brief_rendering_repeatability_witness :
    display_description "Linkage" = "Linkage" ∧ display_badge "Linkage" = "" :=
  brief_rendering_repeatability.2.2.2.1 "Linkage" (by decide) (by decide)

/-- Claim C6: verbose result display emits output only for the pairs
whose key has exactly 3 characters; pairs with longer (subfield) keys
are skipped entirely, as shown by the filter characterization and by a
concrete match list containing a subfield pair. -/
theorem verbose_skips_subfield_keys :
    (∀ ms : List (String × Record), ms ≠ [] →
      display_results ms true =
        (ms.filter fun p => p.1.length == 3).map fun p => format_verbose_output p.1 p.2) ∧
    display_results [("245", rec245v), ("245a", mkRec "Title (NR)")] true =
      [format_verbose_output "245" rec245v] := by
  refine ⟨fun ms h => ?_, rfl⟩
  unfold display_results
  rw [if_neg h, if_pos rfl]
  exact verbose_foldr_filter ms

/-- Witness for claim C6 at a concrete match list with a subfield pair. -/
theorem verbose_skips_subfield_keys_witness :
    display_results [("245", rec245v), ("245a", mkRec "Title (NR)")] true =
      ([("245", rec245v), ("245a", mkRec "Title (NR)")].filter fun p => p.1.length == 3).map
        fun p => format_verbose_output p.1 p.2 :=
  verbose_skips_subfield_keys.1 [("245", rec245v), ("245a", mkRec "Title (NR)")] (by decide)

/-- Claim C7: the examples section of detailed rendering shows exactly
`min n 5` examples, numbered consecutively from 1 in the stored order
(the `enumFrom 1` normal form), the rest silently dropped; the section
appears verbatim in the verbose line list whenever examples exist, and a
record with 7 examples shows exactly 5, numbered 1 through 5. -/
theorem examples_capped_at_five :
    (∀ l : List String,
      example_lines l =
        (List.enumFrom 1 (l.take 5)).map (fun p => numbered_example_line p.1 p.2) ∧
      (example_lines l).length = min l.length 5) ∧
    (∀ (key value : String) (details : Details), details.examples ≠ [] →
      ∃ pre, verbose_lines key value details =
        pre ++ examples_header :: (example_lines details.examples ++ [""])) ∧
    example_lines ["e1", "e2", "e3", "e4", "e5", "e6", "e7"] =
      [numbered_example_line 1 "e1", numbered_example_line 2 "e2", numbered_example_line 3 "e3",
       numbered_example_line 4 "e4", numbered_example_line 5 "e5"] := by
  refine ⟨fun l => ⟨number_lines_eq_enumFrom 1 (l.take 5), ?_⟩, ?_, by decide⟩
  · show (number_lines 1 (l.take 5)).length = min l.length 5
    rw [number_lines_length, List.length_take, Nat.min_comm]
  · intro key value details h
    exact ⟨_, by unfold verbose_lines; rw [if_pos h]⟩

/-- Witness for claim C7's section clause at a 7-example record. -/
theorem examples_capped_at_five_witness :
    ∃ pre, verbose_lines "100" "Main Entry - Personal Name (NR)" det7 =
      pre ++ examples_header :: (example_lines det7.examples ++ [""]) :=
  examples_capped_at_five.2.1 "100" "Main Entry - Personal Name (NR)" det7 (by decide)

/-- Claim C8: a keyword query with the verbose flag set is not an error:
the output is exactly the one-line notice followed by the ordinary
non-verbose keyword output (same search, brief rendering). -/
theorem verbose_keyword_downgrade :
    ∀ (data : MarcData) (query : String), is_code_query query = false →
      run_query data query true = notice_line :: run_query data query false := by
  intro data query h
  unfold run_query
  rw [h]
  simp

/-- Witness for claim C8 at a concrete dataset and keyword query. -/
theorem verbose_keyword_downgrade_witness :
    run_query cexEmptyData "isbn" true = notice_line :: run_query cexEmptyData "isbn" false :=
  verbose_keyword_downgrade cexEmptyData "isbn" (by decide)

/-- Claim C10: a field record (3-character key) without Details falls
back to brief rendering under verbose mode: the record is still
displayed, as a single brief line, with no detailed sections. -/
theorem verbose_fallback_no_details :
    ∀ (key : String) (entry : Record), key.length = 3 → entry.Details = none →
      format_verbose_output key entry = format_output key entry.Value ∧
      display_results [(key, entry)] true = [format_output key entry.Value] := by
  intro key entry h hd
  have h1 : format_verbose_output key entry = format_output key entry.Value := by
    unfold format_verbose_output
    rw [hd]
  refine ⟨h1, ?_⟩
  unfold display_results
  rw [if_neg (List.cons_ne_nil _ _), if_pos rfl]
  simp [h, h1]

/-- Witness for claim C10 at a control-field record with no details. -/
theorem verbose_fallback_no_details_witness :
    format_verbose_output "001" (mkRec "Control Number (NR)") =
      format_output "001" (mkRec "Control Number (NR)").Value ∧
    display_results [("001", mkRec "Control Number (NR)")] true =
      [format_output "001" (mkRec "Control Number (NR)").Value] :=
  verbose_fallback_no_details "001" (mkRec "Control Number (NR)") (by decide) rfl
